import Mathlib

/-!
Verification of the znapfile Adaptive Challenge-Response Gateway.

This file gives a shallow embedding, in Lean 4, of the security-critical
parts of the repository:

* `backend/app/core/defense.py` — `AdaptiveSecurityResponse`
  (threat ledger, escalation ladder, challenge verifier),
* `backend/app/core/server_pow.py` — `ServerSidePoW` (server-side
  proof-of-work verifier),
* `backend/app/core/download_tokens.py` — `DownloadTokenManager`
  (single-use download tokens),
* `backend/app/api/v1/endpoints/secure_download.py` — `verify_file_password`
  (resource-local password lockout endpoint),
* `backend/app/core/abuse_prevention.py` — `AbuseDetector.check_bandwidth_abuse`.

The Python code hashes with SHA-256 (`hashlib.sha256(...).hexdigest()`), so we
first implement SHA-256 executably over byte lists, with machine words
modelled as `Nat` reduced mod 2^32.  All recursion is structural so that the
kernel can evaluate concrete instances via `decide`.

Stores (Redis / in-process dicts) are modelled as functions from keys to
optional values; mutation is explicit state passing.  Store reads that can
fail (Redis unavailability) are modelled with `Except Unit`.
-/

set_option maxRecDepth 20000

namespace Znapfile

/-! ### SHA-256 (executable, `Nat` arithmetic mod 2^32) -/

/-- 2^32, the word modulus. -/
def M32 : Nat := 4294967296

/-- 2^32 - 1, the 32-bit mask. -/
def mask32 : Nat := 4294967295

/-- Right rotation of a 32-bit word. -/
def rotr (n x : Nat) : Nat := ((x >>> n) ||| (x <<< (32 - n))) &&& mask32

/-- Bitwise complement within 32 bits. -/
def bnot32 (x : Nat) : Nat := mask32 ^^^ x

/-- SHA-256 `Ch` function. -/
def ch32 (x y z : Nat) : Nat := (x &&& y) ^^^ (bnot32 x &&& z)

/-- SHA-256 `Maj` function. -/
def maj32 (x y z : Nat) : Nat := (x &&& y) ^^^ (x &&& z) ^^^ (y &&& z)

/-- SHA-256 Σ0. -/
def bsig0 (x : Nat) : Nat := rotr 2 x ^^^ rotr 13 x ^^^ rotr 22 x

/-- SHA-256 Σ1. -/
def bsig1 (x : Nat) : Nat := rotr 6 x ^^^ rotr 11 x ^^^ rotr 25 x

/-- SHA-256 σ0. -/
def ssig0 (x : Nat) : Nat := rotr 7 x ^^^ rotr 18 x ^^^ (x >>> 3)

/-- SHA-256 σ1. -/
def ssig1 (x : Nat) : Nat := rotr 17 x ^^^ rotr 19 x ^^^ (x >>> 10)

/-- The 64 SHA-256 round constants (FIPS 180-4 §4.2.2), in decimal. -/
def sha256K : List Nat :=
  [1116352408, 1899447441, 3049323471, 3921009573, 961987163, 1508970993,
   2453635748, 2870763221, 3624381080, 310598401, 607225278, 1426881987,
   1925078388, 2162078206, 2614888103, 3248222580, 3835390401, 4022224774,
   264347078, 604807628, 770255983, 1249150122, 1555081692, 1996064986,
   2554220882, 2821834349, 2952996808, 3210313671, 3336571891, 3584528711,
   113926993, 338241895, 666307205, 773529912, 1294757372, 1396182291,
   1695183700, 1986661051, 2177026350, 2456956037, 2730485921, 2820302411,
   3259730800, 3345764771, 3516065817, 3600352804, 4094571909, 275423344,
   430227734, 506948616, 659060556, 883997877, 958139571, 1322822218,
   1537002063, 1747873779, 1955562222, 2024104815, 2227730452, 2361852424,
   2428436474, 2756734187, 3204031479, 3329325298]

/-- Big-endian byte representation of `v` on `n` bytes. -/
def bytesBE : Nat → Nat → List Nat
  | 0, _ => []
  | n + 1, v => ((v >>> (8 * n)) &&& 255) :: bytesBE n v

/-- SHA-256 padding: append `0x80`, zero bytes to 56 mod 64, then the
bit length on 8 big-endian bytes. -/
def padMessage (msg : List Nat) : List Nat :=
  msg ++ 128 :: List.replicate ((119 - msg.length % 64) % 64) 0
      ++ bytesBE 8 (msg.length * 8)

/-- Group bytes into big-endian 32-bit words. -/
def wordsOf : List Nat → List Nat
  | b0 :: b1 :: b2 :: b3 :: rest =>
      ((b0 <<< 24) ||| (b1 <<< 16) ||| (b2 <<< 8) ||| b3) :: wordsOf rest
  | _ => []

/-- One message-schedule step; `acc` holds already-computed words, newest
first, so `w[t-2]` is `acc[1]`, `w[t-7]` is `acc[6]`, `w[t-15]` is `acc[14]`
and `w[t-16]` is `acc[15]`. -/
def schedStep (acc : List Nat) : Nat :=
  (ssig1 (acc.getD 1 0) + acc.getD 6 0 + ssig0 (acc.getD 14 0)
    + acc.getD 15 0) % M32

/-- Extend the message schedule by `n` further words (`acc` newest first). -/
def schedule : Nat → List Nat → List Nat
  | 0, acc => acc.reverse
  | n + 1, acc => schedule n (schedStep acc :: acc)

/-- Full 64-word message schedule from a block's 16 words. -/
def messageSchedule (w16 : List Nat) : List Nat := schedule 48 w16.reverse

/-- SHA-256 working state (eight 32-bit words). -/
structure H8 where
  a : Nat
  b : Nat
  c : Nat
  d : Nat
  e : Nat
  f : Nat
  g : Nat
  h : Nat
  deriving DecidableEq

/-- One compression round, consuming a pair (round constant, schedule word). -/
def round1 (s : H8) (kw : Nat × Nat) : H8 :=
  let t1 := (s.h + bsig1 s.e + ch32 s.e s.f s.g + kw.1 + kw.2) % M32
  let t2 := (bsig0 s.a + maj32 s.a s.b s.c) % M32
  { a := (t1 + t2) % M32, b := s.a, c := s.b, d := s.c,
    e := (s.d + t1) % M32, f := s.e, g := s.f, h := s.g }

/-- Compress one 64-byte block into the running hash state. -/
def compress (s : H8) (block : List Nat) : H8 :=
  let w := messageSchedule (wordsOf block)
  let r := (List.zip sha256K w).foldl round1 s
  { a := (s.a + r.a) % M32, b := (s.b + r.b) % M32, c := (s.c + r.c) % M32,
    d := (s.d + r.d) % M32, e := (s.e + r.e) % M32, f := (s.f + r.f) % M32,
    g := (s.g + r.g) % M32, h := (s.h + r.h) % M32 }

/-- Split a byte list into 64-byte chunks (`fuel` bounds the recursion so it
stays structural; callers pass the list length, which always suffices). -/
def chunksAux : Nat → List Nat → List (List Nat)
  | 0, _ => []
  | _, [] => []
  | fuel + 1, x :: rest =>
      ((x :: rest).take 64) :: chunksAux fuel ((x :: rest).drop 64)

/-- SHA-256 initial hash value (FIPS 180-4 §5.3.3), in decimal. -/
def sha256Init : H8 :=
  ⟨1779033703, 3144134277, 1013904242, 2773480762,
   1359893119, 2600822924, 528734635, 1541459225⟩

/-- SHA-256 digest of a byte list, as eight 32-bit words. -/
def sha256Words (msg : List Nat) : List Nat :=
  let p := padMessage msg
  let s := (chunksAux p.length p).foldl compress sha256Init
  [s.a, s.b, s.c, s.d, s.e, s.f, s.g, s.h]

/-- Lower-case hex digit for `n < 16`. -/
def hexChar (n : Nat) : Char :=
  if n < 10 then Char.ofNat (48 + n) else Char.ofNat (87 + n)

/-- Eight hex characters of one 32-bit word, most significant first. -/
def wordHexChars (w : Nat) : List Char :=
  [hexChar ((w >>> 28) &&& 15), hexChar ((w >>> 24) &&& 15),
   hexChar ((w >>> 20) &&& 15), hexChar ((w >>> 16) &&& 15),
   hexChar ((w >>> 12) &&& 15), hexChar ((w >>> 8) &&& 15),
   hexChar ((w >>> 4) &&& 15), hexChar (w &&& 15)]

/-- Hex digest (64 characters) of a byte list, as in Python's
`hashlib.sha256(b).hexdigest()`. -/
def sha256HexList (msg : List Nat) : List Char :=
  (sha256Words msg).foldr (fun w acc => wordHexChars w ++ acc) []

/-- UTF-8 encoding of one code point, as byte values. -/
def utf8Bytes (c : Char) : List Nat :=
  let n := c.toNat
  if n < 128 then [n]
  else if n < 2048 then [192 ||| (n >>> 6), 128 ||| (n &&& 63)]
  else if n < 65536 then
    [224 ||| (n >>> 12), 128 ||| ((n >>> 6) &&& 63), 128 ||| (n &&& 63)]
  else
    [240 ||| (n >>> 18), 128 ||| ((n >>> 12) &&& 63),
     128 ||| ((n >>> 6) &&& 63), 128 ||| (n &&& 63)]

/-- UTF-8 bytes of a string, as in Python's `s.encode()`. -/
def strBytes (s : String) : List Nat :=
  s.data.foldr (fun c acc => utf8Bytes c ++ acc) []

/-- Hex SHA-256 digest of a string's UTF-8 bytes, as character list. -/
def sha256hex (s : String) : List Char := sha256HexList (strBytes s)

/-- Hex SHA-256 digest of a string, as a string. -/
def sha256hexStr (s : String) : String := String.mk (sha256hex s)

/-! ### `defense.py` — `AdaptiveSecurityResponse`

The threat counters live in Redis under keys
`asr:attempts:ip:<id>`, `asr:attempts:email:<id>`, `asr:attempts:fp:<id>`,
`asr:blocked:<id>`; all are written by `INCR`/`SETEX` so their values are
decimal integers, modelled as `Nat`.  A read is `Except Unit (Option Nat)`:
`.error ()` models the Redis client raising (store unreachable), `.ok none`
a missing key.  `asr:blocked:<id>` always stores `"1"`; only its presence is
tested (`if await self.redis.get(...)`), which `Option.isSome` captures. -/

/-- One row of `AdaptiveSecurityResponse.levels`. -/
structure LevelEntry where
  attempts : Nat
  action : String
  difficulty : Nat
  deriving DecidableEq

/-- `self.levels`, the escalation ladder (defense.py lines 24–33). -/
def levels : List LevelEntry :=
  [⟨0, "none", 0⟩, ⟨3, "simple_math", 1⟩, ⟨5, "proof_of_work", 2⟩,
   ⟨10, "proof_of_work", 3⟩, ⟨15, "proof_of_work", 4⟩,
   ⟨20, "temp_block", 300⟩, ⟨30, "temp_block", 3600⟩,
   ⟨50, "permanent_block", 0⟩]

/-- Result dict of `get_threat_level`: either `{"action": "blocked", ...}` or
`{"action", "difficulty", "attempts"}`. -/
inductive ThreatResult
  | blocked (attempts : Nat)
  | level (action : String) (difficulty : Nat) (attempts : Nat)
  deriving DecidableEq

/-- Counter-store reads, failing with `.error ()` when Redis is unreachable. -/
def CtrStore := String → Except Unit (Option Nat)

/-- `AdaptiveSecurityResponse.get_threat_level` (defense.py lines 35–68).
Each Redis `get` is sequenced in `Except`, so a raised store error
propagates exactly as a Python exception would.  A stored `"0"` is a
non-empty (truthy) string in Python, hence `some n` always enters the
`max`. -/
def get_threat_level (store : CtrStore) (identifier : String) :
    Except Unit ThreatResult := do
  let ipA ← store ("asr:attempts:ip:" ++ identifier)
  let a1 := match ipA with | some n => max 0 n | none => 0
  let emA ← store ("asr:attempts:email:" ++ identifier)
  let a2 := match emA with | some n => max a1 n | none => a1
  let fpA ← store ("asr:attempts:fp:" ++ identifier)
  let a3 := match fpA with | some n => max a2 n | none => a2
  let bl ← store ("asr:blocked:" ++ identifier)
  if bl.isSome then
    return .blocked a3
  else
    match (levels.reverse).find? (fun l => a3 ≥ l.attempts) with
    | some l => return .level l.action l.difficulty a3
    | none => return .level "none" 0 0

/-- A pure (always-available) counter map. -/
def CtrMap := String → Option Nat

/-- Lift a pure counter map to an always-succeeding store. -/
def mapStore (m : CtrMap) : CtrStore := fun k => .ok (m k)

/-- Redis `INCR`: missing keys count as 0. -/
def incrKey (m : CtrMap) (k : String) : CtrMap :=
  fun k' => if k' = k then some ((m k).getD 0 + 1) else m k'

/-- Redis `SETEX` (the TTL is enforced by the store and not modelled). -/
def setKey (m : CtrMap) (k : String) (v : Nat) : CtrMap :=
  fun k' => if k' = k then some v else m k'

/-- Charwise ASCII lowercasing — Python's `str.lower()` on the ASCII
e-mail strings used here — written structurally over the character list so
it kernel-evaluates (`String.toLower` itself recurses on byte positions). -/
def strLower (s : String) : String := String.mk (s.data.map Char.toLower)

/-- `hashlib.sha256(email.lower().encode()).hexdigest()[:16]`
(defense.py line 81). -/
def emailHash (email : String) : String :=
  String.mk ((sha256hex (strLower email)).take 16)

/-- `AdaptiveSecurityResponse.record_failure` (defense.py lines 70–95):
increment the IP counter, the hashed-email counter when an email was given,
and the fingerprint counter when one was given; then, if the threat level of
the IP reaches `permanent_block`, set the blocked flag for the IP. -/
def record_failure (m : CtrMap) (ip : String)
    (email fingerprint : Option String) : CtrMap :=
  let m1 := incrKey m ("asr:attempts:ip:" ++ ip)
  let m2 := match email with
    | some e => incrKey m1 ("asr:attempts:email:" ++ emailHash e)
    | none => m1
  let m3 := match fingerprint with
    | some fp => incrKey m2 ("asr:attempts:fp:" ++ fp)
    | none => m2
  match get_threat_level (mapStore m3) ip with
  | .ok (.level "permanent_block" _ _) =>
      setKey m3 ("asr:blocked:" ++ ip) 1
  | _ => m3

/-- Stored challenge payload (the JSON under `asr:challenge:<id>`):
either `{"answer", "type": "math"}` or
`{"challenge", "difficulty", "type": "pow"}`. -/
inductive ChalData
  | math (answer : String)
  | pow (challenge : String) (difficulty : Nat)
  deriving DecidableEq

/-- Challenge store, keyed by challenge id (the Redis keys carry the
distinct namespace `asr:challenge:`, disjoint from the counter keys). -/
def ChalStore := String → Option ChalData

/-- Redis `DELETE` on the challenge store. -/
def delChalKey (st : ChalStore) (k : String) : ChalStore :=
  fun k' => if k' = k then none else st k'

/-- The hash check of defense.py lines 204–210: the hex digest of
`f"{challenge}{solution}"` — prefix and solution concatenated with **no
separator** — must start with `difficulty` leading `'0'` characters. -/
def powAccepts (challenge : String) (difficulty : Nat) (solution : String) :
    Bool :=
  List.isPrefixOf (List.replicate difficulty '0')
    (sha256hex (challenge ++ solution))

/-- `AdaptiveSecurityResponse.verify_challenge` (defense.py lines 180–215):
reject empty id/solution, look the challenge up, delete it before checking,
then compare (exact match for math, hash-prefix for pow).  Returns the
verdict and the updated store. -/
def verify_challenge (st : ChalStore) (challenge_id solution : String) :
    Bool × ChalStore :=
  if challenge_id = "" ∨ solution = "" then (false, st)
  else
    match st challenge_id with
    | none => (false, st)
    | some data =>
      let st' := delChalKey st challenge_id
      match data with
      | .math answer => (solution == answer, st')
      | .pow challenge difficulty =>
          (powAccepts challenge difficulty solution, st')

/-! ### `server_pow.py` — `ServerSidePoW` -/

/-- The JSON stored under `pow:<challenge_id>` (server_pow.py lines 30–37). -/
structure PowChallenge where
  ip : String
  resource : String
  nonce : String
  timestamp : Nat
  difficulty : Nat
  used : Bool
  deriving DecidableEq

/-- PoW-challenge store, keyed by challenge id (Redis namespace `pow:`). -/
def PowStore := String → Option PowChallenge

/-- Store write for the PoW-challenge store. -/
def setPowKey (st : PowStore) (k : String) (v : PowChallenge) : PowStore :=
  fun k' => if k' = k then some v else st k'

/-- The hash check of server_pow.py lines 91–95: the hex digest of
`f"{nonce}:{solution}"` — **with** the `":"` separator — must start with
`difficulty` leading `'0'` characters. -/
def serverPowAccepts (nonce : String) (difficulty : Nat) (solution : String) :
    Bool :=
  List.isPrefixOf (List.replicate difficulty '0')
    (sha256hex (nonce ++ ":" ++ solution))

/-- `ServerSidePoW.verify_challenge` (server_pow.py lines 59–112), with
Redis present.  `genToken` abstracts `_generate_access_token` (an
HMAC-signed value written to the disjoint `pow_token:` namespace, which the
challenge logic never reads); `now` is `time.time()`; the TTL is 300.
On a valid solution the challenge is re-stored with `used = True`; on any
failure the store is untouched. -/
def server_verify_challenge (st : PowStore)
    (genToken : String → String → String) (now : Nat)
    (challenge_id solution ip resource : String) :
    Bool × Option String × PowStore :=
  match st challenge_id with
  | none => (false, none, st)
  | some cd =>
    if cd.used then (false, none, st)
    else if cd.ip ≠ ip then (false, none, st)
    else if cd.resource ≠ resource then (false, none, st)
    else if now - cd.timestamp > 300 then (false, none, st)
    else if serverPowAccepts cd.nonce cd.difficulty solution then
      (true, some (genToken ip resource),
       setPowKey st challenge_id { cd with used := true })
    else (false, none, st)

/-! ### `download_tokens.py` — `DownloadTokenManager` -/

/-- One entry of the in-process dict `self.tokens`
(download_tokens.py lines 19–25). -/
structure TokenData where
  file_id : String
  user_ip : String
  password_verified : Bool
  created_at : Nat
  used : Bool
  deriving DecidableEq

/-- `self.tokens`, keyed by `sha256(token).hexdigest()`. -/
def TokStore := String → Option TokenData

/-- Dict insert / in-place update. -/
def setTok (ts : TokStore) (k : String) (v : TokenData) : TokStore :=
  fun k' => if k' = k then some v else ts k'

/-- Dict delete. -/
def delTok (ts : TokStore) (k : String) : TokStore :=
  fun k' => if k' = k then none else ts k'

/-- `self.token_expiry` (line 12). -/
def token_expiry : Nat := 60

/-- `_cleanup_expired` (lines 74–84): drop used or expired entries,
modelled pointwise. -/
def cleanup_expired (ts : TokStore) (now : Nat) : TokStore :=
  fun k => match ts k with
  | some d =>
      if d.used || decide (now - d.created_at > token_expiry) then none
      else some d
  | none => none

/-- `create_download_token` (lines 14–30).  The random token value
(`secrets.token_urlsafe(32)`) is externalized as the `token` argument; the
entry is stored under the token's SHA-256 hex digest with `used = False`,
then expired entries are cleaned up.  Returns the token and the new store. -/
def create_download_token (ts : TokStore) (now : Nat)
    (token file_id user_ip : String) (password_verified : Bool) :
    String × TokStore :=
  let ts' := setTok ts (sha256hexStr token)
    ⟨file_id, user_ip, password_verified, now, false⟩
  (token, cleanup_expired ts' now)

/-- `verify_download_token` (lines 32–64): reject the empty token, look the
hash up, reject used entries, delete and reject expired ones, reject
file-id or IP mismatches, and otherwise mark the entry used and accept. -/
def verify_download_token (ts : TokStore) (now : Nat)
    (token file_id user_ip : String) : Bool × TokStore :=
  if token = "" then (false, ts)
  else
    let tokenHash := sha256hexStr token
    match ts tokenHash with
    | none => (false, ts)
    | some d =>
      if d.used then (false, ts)
      else if now - d.created_at > token_expiry then (false, delTok ts tokenHash)
      else if d.file_id ≠ file_id then (false, ts)
      else if d.user_ip ≠ user_ip then (false, ts)
      else (true, setTok ts tokenHash { d with used := true })

/-! ### `secure_download.py` — `verify_file_password` -/

/-- The columns of the `File` row that `verify_file_password` reads and
writes.  `password_hash`/`max_password_attempts` are nullable. -/
structure FileRec where
  password_hash : Option String
  failed_password_attempts : Nat
  max_password_attempts : Option Nat
  deriving DecidableEq

/-- Python truthiness of a nullable string (`None` and `""` are falsy). -/
def truthyStr : Option String → Bool
  | none => false
  | some s => s ≠ ""

/-- Python truthiness of a nullable integer (`None` and `0` are falsy). -/
def truthyNat : Option Nat → Bool
  | none => false
  | some 0 => false
  | some _ => true

/-- `file.max_password_attempts - file.failed_password_attempts if
file.max_password_attempts else 999` (lines 78 and 133); may be negative. -/
def attemptsRemaining (f : FileRec) : Int :=
  if truthyNat f.max_password_attempts then
    (f.max_password_attempts.getD 0 : Int) - (f.failed_password_attempts : Int)
  else 999

/-- The backoff exponent of line 131:
`2 ** min(file.failed_password_attempts, 5)` seconds. -/
def backoffDelay (n : Nat) : Nat := 2 ^ (min n 5)

/-- The distinct responses `verify_file_password` can produce.  The 428
payloads' random CAPTCHA id/question are omitted; `remaining` is the
`attempts_remaining` field and `delay` the backoff sleep in seconds. -/
inductive VPResponse
  | notFound
  | noPasswordRequired
  | captchaRequired (remaining : Int)
  | invalidCaptcha
  | locked
  | wrongPasswordCaptcha (remaining : Int) (delay : Nat)
  | wrongPassword (remaining : Int) (delay : Nat)
  | success
  deriving DecidableEq

/-- HTTP status code of each response, as raised in the source. -/
def VPResponse.status : VPResponse → Nat
  | .notFound => 404
  | .noPasswordRequired => 400
  | .captchaRequired _ => 428
  | .invalidCaptcha => 400
  | .locked => 403
  | .wrongPasswordCaptcha _ _ => 428
  | .wrongPassword _ _ => 401
  | .success => 200

/-- User-visible `detail` of each response (for the dict-valued 428 payloads
and the success body, a stand-in tag is used; the others are the literal
strings from the source). -/
def VPResponse.detail : VPResponse → String
  | .notFound => "File not found"
  | .noPasswordRequired => "File does not require password"
  | .captchaRequired _ => "captcha_required"
  | .invalidCaptcha => "Invalid CAPTCHA answer"
  | .locked => "File is locked due to too many failed attempts"
  | .wrongPasswordCaptcha _ _ => "captcha_required"
  | .wrongPassword r _ =>
      "Incorrect password. " ++ toString r ++ " attempts remaining."
  | .success => "download_token"

/-- `verify_file_password` (secure_download.py lines 42–177) as a function
of the looked-up file row and the request fields.  `pwVerify` abstracts the
bcrypt `verify_password`; `captchaOk` abstracts
`captcha_service.verify_captcha` (whose private store is irrelevant here —
only the verdict is consumed).  Branches, in source order: 404 when no row
matches the code; 400 when the file has no password; the CAPTCHA gate once
3 failures are recorded (missing CAPTCHA fields → 428, wrong answer → 400);
the lockout check; the password check (failure increments the row's counter,
sleeps `backoffDelay`, and answers 428 or 401); success resets the counter.
Returns the response and the updated row. -/
def verify_file_password (pwVerify : String → String → Bool)
    (captchaOk : String → String → Bool)
    (file? : Option FileRec) (password : String)
    (captcha_id captcha_answer : Option String) :
    VPResponse × Option FileRec :=
  match file? with
  | none => (.notFound, none)
  | some f =>
    if truthyStr f.password_hash = false then (.noPasswordRequired, some f)
    else if 3 ≤ f.failed_password_attempts
        ∧ (truthyStr captcha_id = false ∨ truthyStr captcha_answer = false) then
      (.captchaRequired (attemptsRemaining f), some f)
    else if 3 ≤ f.failed_password_attempts
        ∧ captchaOk (captcha_id.getD "") (captcha_answer.getD "") = false then
      (.invalidCaptcha, some f)
    else if truthyNat f.max_password_attempts
        ∧ f.max_password_attempts.getD 0 ≤ f.failed_password_attempts then
      (.locked, some f)
    else if pwVerify password (f.password_hash.getD "") = false then
      let f' := { f with
        failed_password_attempts := f.failed_password_attempts + 1 }
      let d := backoffDelay f'.failed_password_attempts
      if 3 ≤ f'.failed_password_attempts then
        (.wrongPasswordCaptcha (attemptsRemaining f') d, some f')
      else
        (.wrongPassword (attemptsRemaining f') d, some f')
    else
      (.success, some { f with failed_password_attempts := 0 })

/-! ### `abuse_prevention.py` — `AbuseDetector.check_bandwidth_abuse` -/

/-- `UserTier` (models/user.py). -/
inductive UserTier
  | FREE
  | PRO
  | MAX
  deriving DecidableEq

/-- The `File` columns read by the bandwidth check. -/
structure AbuseFile where
  bandwidth_used : Option Nat
  file_size : Nat
  deriving DecidableEq

/-- `THRESHOLDS["bandwidth_multiplier"]` (abuse_prevention.py lines 27–31):
`float('inf')` for every tier, modelled as `none` in `Option ℚ`. -/
def bandwidth_multiplier_threshold : UserTier → Option ℚ := fun _ => none

/-- Python float `>` against a possibly-infinite threshold: `x > inf` is
false for every float `x` (even `inf`), which the `none` case captures. -/
def floatGtThreshold (m : ℚ) (t : Option ℚ) : Bool :=
  match t with
  | none => false
  | some q => decide (q < m)

/-- `AbuseDetector.check_bandwidth_abuse` (lines 77–94).  The division is in
ℚ; every theorem about it assumes `0 < file_size`, keeping the Python
`ZeroDivisionError` case outside the hypotheses. -/
def check_bandwidth_abuse (file : AbuseFile) (tier : UserTier) :
    Bool × Option String :=
  if truthyNat file.bandwidth_used = false then (true, none)
  else
    let multiplier : ℚ :=
      (file.bandwidth_used.getD 0 : ℚ) / (file.file_size : ℚ)
    if floatGtThreshold multiplier (bandwidth_multiplier_threshold tier) then
      (false, some "Bandwidth abuse: file downloaded a multiple of its size beyond the tier limit")
    else (true, none)

/-! ### Derived definitions used by the claims -/

/-- The escalation scan of `get_threat_level` (defense.py lines 59–68) as a
pure map from a failure count to a ladder row: the first row, scanning from
the highest threshold, whose `attempts` the count meets.  The `none`
fallback (line 68) is unreachable because the threshold-0 row always
matches. -/
def escalate (attempts : Nat) : LevelEntry :=
  match (levels.reverse).find? (fun l => attempts ≥ l.attempts) with
  | some l => l
  | none => ⟨0, "none", 0⟩

/-- The restrictiveness order stated by the claim, encoded as a numeric
rank: none < simple_math < proof_of_work (rank grows with difficulty) <
temp_block (rank grows with duration) < permanent_block.  The bands are
spaced so the ladder's concrete parameters (difficulty ≤ 4, durations ≤
3600) stay inside their bands. -/
def restrictRank (action : String) (difficulty : Nat) : Nat :=
  if action = "none" then 0
  else if action = "simple_math" then 1
  else if action = "proof_of_work" then 10 + difficulty
  else if action = "temp_block" then 10000 + difficulty
  else 100000000

/-- `restrictRank` composed with the ladder, written as a direct threshold
case split on the failure count (an auxiliary for the monotonicity proof). -/
def rankOf (f : Nat) : Nat :=
  if 50 ≤ f then 100000000
  else if 30 ≤ f then 13600
  else if 20 ≤ f then 10300
  else if 15 ≤ f then 14
  else if 10 ≤ f then 13
  else if 5 ≤ f then 12
  else if 3 ≤ f then 1
  else 0

/-- The maximum of the three per-namespace counters that
`get_threat_level` reads for one identifier string (missing keys count 0). -/
def maxCounters (m : CtrMap) (id : String) : Nat :=
  max (max ((m ("asr:attempts:ip:" ++ id)).getD 0)
           ((m ("asr:attempts:email:" ++ id)).getD 0))
      ((m ("asr:attempts:fp:" ++ id)).getD 0)

/-- The proof-of-work acceptance predicate as the SPEC words it:
`hex(sha256(prefix || ":" || s))` has `difficulty` leading hex zero
characters.  Kept separate from the source-derived verifiers so the two can
be compared. -/
def specPowAccepted (P : String) (difficulty : Nat) (s : String) : Bool :=
  List.isPrefixOf (List.replicate difficulty '0')
    (sha256hex (P ++ ":" ++ s))

/-- Arguments of one later `verify_download_token` call. -/
structure VerifyCall where
  now : Nat
  token : String
  file_id : String
  user_ip : String

/-- Apply a sequence of `verify_download_token` calls to the token store. -/
def runVerifies (ts : TokStore) : List VerifyCall → TokStore
  | [] => ts
  | c :: rest =>
      runVerifies (verify_download_token ts c.now c.token c.file_id c.user_ip).2 rest

/-- The token entry under `tokenHash`, if present, is marked consumed. -/
def consumedAt (ts : TokStore) (tokenHash : String) : Prop :=
  ∀ d, ts tokenHash = some d → d.used = true

/-! ## Theorems -/

/-- Sanity anchor: the FIPS 180 test vector for "abc". -/
theorem sha256_abc :
    sha256hexStr "abc"
      = "ba7816bf8f01cfea414140de5dae2223b00361a396177a9cb410ff61f20015ad" := by
  decide

/-- Sanity anchor: the digest of the empty string. -/
theorem sha256_empty :
    sha256hexStr ""
      = "e3b0c44298fc1c149afbf4c8996fb92427ae41e4649b934ca495991b7852b855" := by
  decide

/-- The ladder scan as an explicit threshold case split. -/
theorem escalate_eq (f : Nat) :
    escalate f =
      (if 50 ≤ f then (⟨50, "permanent_block", 0⟩ : LevelEntry)
       else if 30 ≤ f then ⟨30, "temp_block", 3600⟩
       else if 20 ≤ f then ⟨20, "temp_block", 300⟩
       else if 15 ≤ f then ⟨15, "proof_of_work", 4⟩
       else if 10 ≤ f then ⟨10, "proof_of_work", 3⟩
       else if 5 ≤ f then ⟨5, "proof_of_work", 2⟩
       else if 3 ≤ f then ⟨3, "simple_math", 1⟩
       else ⟨0, "none", 0⟩) := by
  have hrev : levels.reverse =
      [⟨50, "permanent_block", 0⟩, ⟨30, "temp_block", 3600⟩,
       ⟨20, "temp_block", 300⟩, ⟨15, "proof_of_work", 4⟩,
       ⟨10, "proof_of_work", 3⟩, ⟨5, "proof_of_work", 2⟩,
       ⟨3, "simple_math", 1⟩, ⟨0, "none", 0⟩] := by decide
  unfold escalate
  rw [hrev]
  split_ifs with h1 h2 h3 h4 h5 h6 h7 <;>
    simp_all [ge_iff_le, Nat.not_le, Nat.le_of_lt]

/-- The restrictiveness rank of the ladder row selected for a failure count
equals the direct case split `rankOf`. -/
theorem rank_escalate (f : Nat) :
    restrictRank (escalate f).action (escalate f).difficulty = rankOf f := by
  rw [escalate_eq f]
  unfold rankOf
  split_ifs <;> decide

set_option maxHeartbeats 4000000 in
/-- C6: for all failure counts f1 < f2, the escalator's required action at
f2 is never less restrictive than its action at f1, under the order
none < simple_math < proof_of_work (higher difficulty more restrictive) <
temp_block (longer duration more restrictive) < permanent_block. -/
theorem escalation_monotone (f1 f2 : Nat) (h : f1 < f2) :
    restrictRank (escalate f1).action (escalate f1).difficulty
      ≤ restrictRank (escalate f2).action (escalate f2).difficulty := by
  rw [rank_escalate f1, rank_escalate f2]
  unfold rankOf
  split_ifs <;> omega

/-- Witness for `escalation_monotone` at 4 < 7 (simple_math vs
proof_of_work at difficulty 2). -/
theorem escalation_monotone_witness :
    4 < 7 ∧
      restrictRank (escalate 4).action (escalate 4).difficulty
        ≤ restrictRank (escalate 7).action (escalate 7).difficulty :=
  ⟨by decide, escalation_monotone 4 7 (by decide)⟩

/-- C9: the implemented backoff `2 ** min(failed_attempts, 5)` equals the
specified `min(2 ** failed_attempts, 32)` for every attempt count. -/
theorem backoff_delay_eq_spec (n : Nat) : backoffDelay n = min (2 ^ n) 32 := by
  unfold backoffDelay
  rcases Nat.le_total n 5 with h | h
  · have h2 : 2 ^ n ≤ 32 := by
      calc 2 ^ n ≤ 2 ^ 5 := Nat.pow_le_pow_right (by norm_num) h
        _ = 32 := by norm_num
    rw [Nat.min_eq_left h, Nat.min_eq_left h2]
  · have h2 : 32 ≤ 2 ^ n := by
      calc (32 : Nat) = 2 ^ 5 := by norm_num
        _ ≤ 2 ^ n := Nat.pow_le_pow_right (by norm_num) h
    rw [Nat.min_eq_right h, Nat.min_eq_right h2]
    norm_num

/-- C10: with every tier's bandwidth-multiplier threshold infinite, the
bandwidth-abuse check passes every file of positive size. -/
theorem bandwidth_check_always_passes (file : AbuseFile) (tier : UserTier)
    (h : 0 < file.file_size) :
    check_bandwidth_abuse file tier = (true, none) := by
  simp [check_bandwidth_abuse, floatGtThreshold, bandwidth_multiplier_threshold]

/-- Witness for `bandwidth_check_always_passes`: a 1-byte file downloaded
five times passes for the free tier. -/
theorem bandwidth_check_always_passes_witness :
    0 < (AbuseFile.mk (some 5) 1).file_size ∧
      check_bandwidth_abuse ⟨some 5, 1⟩ UserTier.FREE = (true, none) :=
  ⟨by decide, bandwidth_check_always_passes ⟨some 5, 1⟩ UserTier.FREE (by decide)⟩

/-- C4 counterexample: with the store unreachable (every read raises),
`get_threat_level` propagates the error; it does not return the fail-open
threat-level-0 result. -/
theorem threat_level_unavailable_raises :
    get_threat_level (fun _ => Except.error ()) "203.0.113.7" = Except.error ()
    ∧ (Except.error () : Except Unit ThreatResult)
        ≠ Except.ok (ThreatResult.level "none" 0 0) := by
  exact ⟨rfl, fun hcontra => Except.noConfusion hcontra⟩

/-- C4 amended: when the first store read (the IP-attempts key) fails,
`get_threat_level` raises to its caller instead of failing open. -/
theorem threat_level_propagates_store_error (store : CtrStore) (id : String)
    (h : store ("asr:attempts:ip:" ++ id) = Except.error ()) :
    get_threat_level store id = Except.error () := by
  unfold get_threat_level
  rw [h]
  rfl

/-- Witness for `threat_level_propagates_store_error` on an always-failing
store. -/
theorem threat_level_propagates_store_error_witness :
    get_threat_level (fun _ => Except.error ()) "10.0.0.1" = Except.error () :=
  threat_level_propagates_store_error (fun _ => Except.error ()) "10.0.0.1" rfl

/-- C3 counterexample: the `AdaptiveSecurityResponse` verifier, holding a
proof-of-work challenge with prefix "a" and difficulty 1, accepts the
solution "51" — `sha256("a51")` starts with '0' — although
`sha256("a" + ":" + "51")` does not start with '0', so the spec's predicate
over `P + ":" + s` rejects that very solution. -/
theorem defense_pow_ignores_separator :
    (verify_challenge (fun k => if k = "c1" then some (.pow "a" 1) else none)
        "c1" "51").1 = true
    ∧ specPowAccepted "a" 1 "51" = false := by
  decide

/-- C3 amended: `ServerSidePoW.verify_challenge` accepts exactly the spec's
set — `difficulty` leading hex zeros of `sha256(prefix + ":" + s)` — while
`AdaptiveSecurityResponse.verify_challenge` accepts exactly the set defined
by `sha256(prefix + s)`, with no ":" separator. -/
theorem pow_acceptance_characterized :
    (∀ (st : ChalStore) (cid c s : String) (d : Nat),
        cid ≠ "" → s ≠ "" → st cid = some (.pow c d) →
        ((verify_challenge st cid s).1 = true
          ↔ List.isPrefixOf (List.replicate d '0') (sha256hex (c ++ s)) = true))
    ∧ (∀ (st : PowStore) (gt : String → String → String) (now : Nat)
        (cid s ip res : String) (cd : PowChallenge),
        st cid = some cd → cd.used = false → cd.ip = ip → cd.resource = res →
        now - cd.timestamp ≤ 300 →
        ((server_verify_challenge st gt now cid s ip res).1 = true
          ↔ specPowAccepted cd.nonce cd.difficulty s = true)) := by
  constructor
  · intro st cid c s d hcid hs hst
    simp [verify_challenge, hcid, hs, hst, powAccepts]
  · intro st gt now cid s ip res cd hst hused hip hres hexp
    simp only [server_verify_challenge, hst]
    rw [hused, hip, hres]
    simp only [gt_iff_lt, Nat.not_lt.mpr hexp, if_false, ne_eq,
      not_true_eq_false, Bool.false_eq_true, if_true]
    cases hsp : serverPowAccepts cd.nonce cd.difficulty s <;>
      simp_all [serverPowAccepts, specPowAccepted]

/-- Witness for `pow_acceptance_characterized`, instantiating both verifiers
at concrete stores and solutions. -/
theorem pow_acceptance_characterized_witness :
    ((verify_challenge (fun k => if k = "c3" then some (.pow "a" 1) else none)
        "c3" "7").1 = true
      ↔ List.isPrefixOf (List.replicate 1 '0') (sha256hex ("a" ++ "7")) = true)
    ∧ ((server_verify_challenge
          (fun k => if k = "c4" then some ⟨"i", "r", "n", 0, 1, false⟩ else none)
          (fun _ _ => "tok") 0 "c4" "60" "i" "r").1 = true
      ↔ specPowAccepted "n" 1 "60" = true) :=
  ⟨pow_acceptance_characterized.1
      (fun k => if k = "c3" then some (.pow "a" 1) else none) "c3" "a" "7" 1
      (by decide) (by decide) (by decide),
   pow_acceptance_characterized.2
      (fun k => if k = "c4" then some ⟨"i", "r", "n", 0, 1, false⟩ else none)
      (fun _ _ => "tok") 0 "c4" "60" "i" "r" ⟨"i", "r", "n", 0, 1, false⟩
      (by decide) rfl rfl rfl (by decide)⟩

/-- C1 counterexample: for `ServerSidePoW`, a failed verification leaves the
challenge record untouched (it is marked used only on success), so after one
failed `verify_challenge` a second call with the same challenge_id and a
correct solution succeeds. -/
theorem server_pow_not_single_use_on_failure :
    (server_verify_challenge
        (fun k => if k = "c1" then some ⟨"1.2.3.4", "res", "n", 0, 1, false⟩
                  else none)
        (fun _ _ => "tok") 0 "c1" "bad" "1.2.3.4" "res").1 = false
    ∧ (server_verify_challenge
        (server_verify_challenge
          (fun k => if k = "c1" then some ⟨"1.2.3.4", "res", "n", 0, 1, false⟩
                    else none)
          (fun _ _ => "tok") 0 "c1" "bad" "1.2.3.4" "res").2.2
        (fun _ _ => "tok") 0 "c1" "60" "1.2.3.4" "res").1 = true := by
  decide

/-- Under valid inputs, `AdaptiveSecurityResponse.verify_challenge` always
deletes the looked-up challenge, whatever the verdict. -/
theorem verify_challenge_deletes (st : ChalStore) (cid s : String)
    (hcid : cid ≠ "") (hs : s ≠ "") (d : ChalData) (hst : st cid = some d) :
    (verify_challenge st cid s).2 = delChalKey st cid := by
  cases d <;> simp [verify_challenge, hcid, hs, hst]

/-- C1 amended: for `AdaptiveSecurityResponse.verify_challenge`, after any
call with a non-empty solution a second call with the same challenge_id
returns false (the record is deleted regardless of outcome); for
`ServerSidePoW.verify_challenge`, the record is marked used only on success,
so the single-use guarantee holds after a successful verification (after a
failed one the challenge remains redeemable, see the counterexample). -/
theorem challenge_single_use_amended :
    (∀ (st : ChalStore) (cid s1 s2 : String), s1 ≠ "" →
        (verify_challenge (verify_challenge st cid s1).2 cid s2).1 = false)
    ∧ (∀ (st : PowStore) (gt : String → String → String) (n1 n2 : Nat)
        (cid s1 s2 ip1 res1 ip2 res2 : String),
        (server_verify_challenge st gt n1 cid s1 ip1 res1).1 = true →
        (server_verify_challenge
          (server_verify_challenge st gt n1 cid s1 ip1 res1).2.2
          gt n2 cid s2 ip2 res2).1 = false) := by
  constructor
  · intro st cid s1 s2 hs1
    by_cases hcid : cid = ""
    · simp [verify_challenge, hcid]
    · rcases hst : st cid with _ | d
      · have h2 : (verify_challenge st cid s1).2 = st := by
          simp [verify_challenge, hcid, hs1, hst]
        rw [h2]
        by_cases hs2 : s2 = "" <;> simp [verify_challenge, hcid, hs2, hst]
      · rw [verify_challenge_deletes st cid s1 hcid hs1 d hst]
        have hdel : delChalKey st cid cid = none := by simp [delChalKey]
        by_cases hs2 : s2 = "" <;> simp [verify_challenge, hcid, hs2, hdel]
  · intro st gt n1 n2 cid s1 s2 ip1 res1 ip2 res2 hsucc
    rcases hst : st cid with _ | cd
    · simp [server_verify_challenge, hst] at hsucc
    · have hstore : (server_verify_challenge st gt n1 cid s1 ip1 res1).2.2
          = setPowKey st cid { cd with used := true } := by
        simp only [server_verify_challenge, hst] at hsucc ⊢
        split_ifs at hsucc ⊢ <;> simp_all
      rw [hstore]
      have hlook : setPowKey st cid { cd with used := true } cid
          = some { cd with used := true } := by simp [setPowKey]
      simp [server_verify_challenge, hlook]

/-- Witness for `challenge_single_use_amended`, exercising both conjuncts at
concrete stores. -/
theorem challenge_single_use_amended_witness :
    (verify_challenge (verify_challenge
        (fun k => if k = "m1" then some (.math "7") else none) "m1" "7").2
        "m1" "7").1 = false
    ∧ (server_verify_challenge
        (server_verify_challenge
          (fun k => if k = "c5" then some ⟨"i", "r", "n", 0, 1, false⟩ else none)
          (fun _ _ => "t") 0 "c5" "60" "i" "r").2.2
        (fun _ _ => "t") 9 "c5" "60" "i" "r").1 = false :=
  ⟨challenge_single_use_amended.1
      (fun k => if k = "m1" then some (.math "7") else none) "m1" "7" "7"
      (by decide),
   challenge_single_use_amended.2
      (fun k => if k = "c5" then some ⟨"i", "r", "n", 0, 1, false⟩ else none)
      (fun _ _ => "t") 0 9 "c5" "60" "60" "i" "r" "i" "r" (by decide)⟩

/-- C8 counterexample: the unknown-code response (404, "File not found")
and the wrong-password response on an existing file (401, "Incorrect
password. 999 attempts remaining.") are distinguishable — different status
codes and different messages — contrary to the claimed
indistinguishability. -/
theorem password_responses_distinguishable :
    (verify_file_password (fun p ph => p == ph) (fun _ _ => true)
        none "pw" none none).1.status = 404
    ∧ (verify_file_password (fun p ph => p == ph) (fun _ _ => true)
        none "pw" none none).1.detail = "File not found"
    ∧ (verify_file_password (fun p ph => p == ph) (fun _ _ => true)
        (some ⟨some "secret", 0, none⟩) "wrong" none none).1.status = 401
    ∧ (verify_file_password (fun p ph => p == ph) (fun _ _ => true)
        (some ⟨some "secret", 0, none⟩) "wrong" none none).1.detail
        = "Incorrect password. 999 attempts remaining."
    ∧ (verify_file_password (fun p ph => p == ph) (fun _ _ => true)
        none "pw" none none).1
      ≠ (verify_file_password (fun p ph => p == ph) (fun _ _ => true)
        (some ⟨some "secret", 0, none⟩) "wrong" none none).1 := by
  decide

/-- C8 amended: the 404 not-found response occurs exactly when the resource
code is unknown; every request against an existing file row produces some
other response, so the two situations are user-distinguishable rather than
indistinguishable. -/
theorem notfound_iff_unknown_code (pwVerify captchaOk : String → String → Bool)
    (file? : Option FileRec) (password : String) (cid ans : Option String) :
    ((verify_file_password pwVerify captchaOk file? password cid ans).1
        = VPResponse.notFound)
      ↔ file? = none := by
  cases file? with
  | none => simp [verify_file_password]
  | some f =>
    simp only [verify_file_password]
    constructor
    · intro hcontra
      exfalso
      revert hcontra
      split_ifs <;> simp
    · intro hcontra
      exact Option.noConfusion hcontra

/-- C7 counterexample: a resource with max_password_attempts = 10 and
failed_password_attempts = 10 asked without CAPTCHA fields receives the 428
CAPTCHA-required response — not the terminal locked response — even though
the submitted password is correct. -/
theorem locked_resource_captcha_first :
    verify_file_password (fun p ph => p == ph) (fun _ _ => true)
        (some ⟨some "pw", 10, some 10⟩) "pw" none none
      = (.captchaRequired 0, some ⟨some "pw", 10, some 10⟩) := by
  decide

/-- C7 amended: once `failed_password_attempts` has reached a set (nonzero)
`max_password_attempts`, no request succeeds, the password is never
checked, and the stored row is unchanged; the response is the terminal
locked one whenever the CAPTCHA gate passes (in particular whenever a valid
CAPTCHA is supplied), and otherwise the CAPTCHA-required or invalid-CAPTCHA
rejection. -/
theorem locked_resource_amended (pwVerify captchaOk : String → String → Bool)
    (f : FileRec) (password : String) (cid ans : Option String)
    (hph : truthyStr f.password_hash = true)
    (hmax : truthyNat f.max_password_attempts = true)
    (hreach : f.max_password_attempts.getD 0 ≤ f.failed_password_attempts) :
    ((verify_file_password pwVerify captchaOk (some f) password cid ans).1
        = VPResponse.locked
      ∨ (∃ k, (verify_file_password pwVerify captchaOk (some f) password cid
            ans).1 = VPResponse.captchaRequired k)
      ∨ (verify_file_password pwVerify captchaOk (some f) password cid ans).1
          = VPResponse.invalidCaptcha)
    ∧ (verify_file_password pwVerify captchaOk (some f) password cid ans).2
        = some f
    ∧ (truthyStr cid = true → truthyStr ans = true →
        captchaOk (cid.getD "") (ans.getD "") = true →
        (verify_file_password pwVerify captchaOk (some f) password cid ans).1
          = VPResponse.locked) := by
  simp only [verify_file_password]
  split_ifs with h1 h2 h3 h4 h5 h6
  · rw [hph] at h1
    exact absurd h1 (by simp)
  · refine ⟨Or.inr (Or.inl ⟨attemptsRemaining f, rfl⟩), rfl, ?_⟩
    intro hcid hans _
    rcases h2.2 with hc | hc
    · rw [hcid] at hc
      exact absurd hc (by simp)
    · rw [hans] at hc
      exact absurd hc (by simp)
  · refine ⟨Or.inr (Or.inr rfl), rfl, ?_⟩
    intro _ _ hcap
    rw [hcap] at h3
    exact absurd h3.2 (by simp)
  · exact ⟨Or.inl rfl, rfl, fun _ _ _ => rfl⟩
  · exact absurd ⟨hmax, hreach⟩ h4
  · exact absurd ⟨hmax, hreach⟩ h4
  · exact absurd ⟨hmax, hreach⟩ h4

/-- Witness for `locked_resource_amended` on a locked file asked with a
valid CAPTCHA. -/
theorem locked_resource_amended_witness :
    ((verify_file_password (fun p ph => p == ph) (fun _ _ => true)
        (some ⟨some "pw", 10, some 10⟩) "x" (some "cid") (some "8")).1
        = VPResponse.locked
      ∨ (∃ k, (verify_file_password (fun p ph => p == ph) (fun _ _ => true)
          (some ⟨some "pw", 10, some 10⟩) "x" (some "cid") (some "8")).1
            = VPResponse.captchaRequired k)
      ∨ (verify_file_password (fun p ph => p == ph) (fun _ _ => true)
          (some ⟨some "pw", 10, some 10⟩) "x" (some "cid") (some "8")).1
            = VPResponse.invalidCaptcha)
    ∧ (verify_file_password (fun p ph => p == ph) (fun _ _ => true)
        (some ⟨some "pw", 10, some 10⟩) "x" (some "cid") (some "8")).2
        = some ⟨some "pw", 10, some 10⟩
    ∧ (truthyStr (some "cid") = true → truthyStr (some "8") = true →
        (fun (_ _ : String) => true) ((some "cid").getD "")
            ((some "8").getD "") = true →
        (verify_file_password (fun p ph => p == ph) (fun _ _ => true)
          (some ⟨some "pw", 10, some 10⟩) "x" (some "cid") (some "8")).1
            = VPResponse.locked) :=
  locked_resource_amended (fun p ph => p == ph) (fun _ _ => true)
    ⟨some "pw", 10, some 10⟩ "x" (some "cid") (some "8")
    (by decide) (by decide) (by decide)

/-- Binding a successful `Except` value reduces to the continuation. -/
theorem exceptOkBind {α β : Type} (x : α) (f : α → Except Unit β) :
    (Except.ok x : Except Unit α) >>= f = f x := rfl

/-- The ladder scan never falls through: the threshold-0 row always
matches. -/
theorem find?_levels_some (a : Nat) :
    (levels.reverse).find? (fun l => a ≥ l.attempts) = some (escalate a) := by
  unfold escalate
  cases hf : (levels.reverse).find? (fun l => a ≥ l.attempts) with
  | some l => rfl
  | none =>
    exfalso
    have hmem : (⟨0, "none", 0⟩ : LevelEntry) ∈ levels.reverse := by decide
    have hnot := List.find?_eq_none.mp hf _ hmem
    simp at hnot

/-- C5 amended: `get_threat_level` takes one identifier string and returns,
when the store is available, the blocked marker or the ladder row for the
maximum of the three counters stored under that same string in the
ip/email/fingerprint namespaces — it does not aggregate over the actor's
other identifiers (in particular not over the hashed login identifier that
`record_failure` writes). -/
theorem threat_level_single_identifier (m : CtrMap) (id : String) :
    get_threat_level (mapStore m) id =
      Except.ok
        (if (m ("asr:blocked:" ++ id)).isSome then
          ThreatResult.blocked (maxCounters m id)
        else
          ThreatResult.level (escalate (maxCounters m id)).action
            (escalate (maxCounters m id)).difficulty (maxCounters m id)) := by
  rcases hip : m ("asr:attempts:ip:" ++ id) with _ | nip <;>
    rcases hem : m ("asr:attempts:email:" ++ id) with _ | nem <;>
      rcases hfp : m ("asr:attempts:fp:" ++ id) with _ | nfp <;>
        rcases hbl : m ("asr:blocked:" ++ id) with _ | bl <;>
          simp [get_threat_level, mapStore, maxCounters, hip, hem, hfp, hbl,
            exceptOkBind, find?_levels_some, Nat.zero_max, Nat.max_zero]

/-- C5 counterexample: two failures recorded for the same account email but
from two different IPs leave the hashed-email counter at 2, while the
threat level the gateway computes for the second request's IP is only 1 —
the failures recorded against the hashed login identifier are not
reflected in the level returned for that actor's request. -/
theorem email_failures_not_reflected :
    record_failure (record_failure (fun _ => none) "1.1.1.1"
        (some "Bob@Example.com") none) "2.2.2.2" (some "Bob@Example.com") none
      ("asr:attempts:email:" ++ emailHash "Bob@Example.com") = some 2
    ∧ get_threat_level (mapStore (record_failure (record_failure
        (fun _ => none) "1.1.1.1" (some "Bob@Example.com") none)
        "2.2.2.2" (some "Bob@Example.com") none)) "2.2.2.2"
      = Except.ok (ThreatResult.level "none" 0 1) := by
  exact ⟨by decide, by rfl⟩

/-- Every `verify_download_token` call leaves the store unchanged, deletes
one key, or overwrites one key with a consumed entry. -/
theorem verify_download_token_store_shape (ts : TokStore) (now : Nat)
    (t fid ip : String) :
    (verify_download_token ts now t fid ip).2 = ts
    ∨ (∃ k, (verify_download_token ts now t fid ip).2 = delTok ts k)
    ∨ (∃ k d, d.used = true
        ∧ (verify_download_token ts now t fid ip).2 = setTok ts k d) := by
  unfold verify_download_token
  by_cases ht : t = ""
  · simp [ht]
  · rcases hlook : ts (sha256hexStr t) with _ | d
    · simp [ht, hlook]
    · simp only [ht, hlook, if_false]
      split_ifs
      · left; rfl
      · right; left; exact ⟨_, rfl⟩
      · left; rfl
      · left; rfl
      · right; right; exact ⟨_, { d with used := true }, rfl, rfl⟩

/-- Consumption of a token entry survives any further
`verify_download_token` call. -/
theorem consumed_preserved_verify (ts : TokStore) (now : Nat)
    (t fid ip tokenHash : String) (hc : consumedAt ts tokenHash) :
    consumedAt (verify_download_token ts now t fid ip).2 tokenHash := by
  rcases verify_download_token_store_shape ts now t fid ip with
    heq | ⟨k, heq⟩ | ⟨k, d, hd, heq⟩ <;> rw [heq]
  · exact hc
  · intro d' hd'
    by_cases hk : tokenHash = k
    · simp [delTok, hk] at hd'
    · exact hc d' (by simpa [delTok, hk] using hd')
  · intro d' hd'
    by_cases hk : tokenHash = k
    · have : some d = some d' := by simpa [setTok, hk] using hd'
      cases this
      exact hd
    · exact hc d' (by simpa [setTok, hk] using hd')

/-- Consumption survives any sequence of `verify_download_token` calls. -/
theorem consumed_preserved_runVerifies (calls : List VerifyCall) :
    ∀ (ts : TokStore) (tokenHash : String), consumedAt ts tokenHash →
      consumedAt (runVerifies ts calls) tokenHash := by
  induction calls with
  | nil => intro ts tokenHash hc; exact hc
  | cons c rest ih =>
      intro ts tokenHash hc
      exact ih _ _ (consumed_preserved_verify ts c.now c.token c.file_id
        c.user_ip tokenHash hc)

/-- A consumed token entry makes every `verify_download_token` call on that
token fail. -/
theorem consumed_verify_false (ts : TokStore) (now : Nat) (t fid ip : String)
    (hc : consumedAt ts (sha256hexStr t)) :
    (verify_download_token ts now t fid ip).1 = false := by
  unfold verify_download_token
  by_cases ht : t = ""
  · simp [ht]
  · rcases hlook : ts (sha256hexStr t) with _ | d
    · simp [ht, hlook]
    · have hd := hc d hlook
      simp [ht, hlook, hd]

/-- A successful `verify_download_token` leaves the token's entry
consumed. -/
theorem verify_true_consumes (ts : TokStore) (now : Nat) (t fid ip : String)
    (hsucc : (verify_download_token ts now t fid ip).1 = true) :
    consumedAt (verify_download_token ts now t fid ip).2 (sha256hexStr t) := by
  unfold verify_download_token at hsucc ⊢
  by_cases ht : t = ""
  · simp [ht] at hsucc
  · rcases hlook : ts (sha256hexStr t) with _ | d
    · simp [ht, hlook] at hsucc
    · simp only [ht, hlook, if_false] at hsucc ⊢
      split_ifs at hsucc ⊢ <;> simp at hsucc
      intro d' hd'
      simp [setTok] at hd'
      subst hd'
      rfl

/-- C2: after one successful `verify_download_token`, every later
`verify_download_token` call with the same token — across any interleaved
sequence of other redemption attempts — returns false: the success marks
the stored entry consumed and no verification ever un-consumes it. -/
theorem download_token_single_use (ts : TokStore) (now : Nat)
    (token file_id user_ip : String)
    (hsucc : (verify_download_token ts now token file_id user_ip).1 = true)
    (calls : List VerifyCall) (n2 : Nat) (fid2 ip2 : String) :
    (verify_download_token
      (runVerifies (verify_download_token ts now token file_id user_ip).2 calls)
      n2 token fid2 ip2).1 = false :=
  consumed_verify_false _ n2 token fid2 ip2
    (consumed_preserved_runVerifies calls _ _
      (verify_true_consumes ts now token file_id user_ip hsucc))

/-- Witness for `download_token_single_use`: a freshly created token
redeems once, then fails on every later attempt. -/
theorem download_token_single_use_witness :
    (verify_download_token
        (create_download_token (fun _ => none) 0 "tokA" "f1" "ip1" true).2
        0 "tokA" "f1" "ip1").1 = true
    ∧ (verify_download_token
        (runVerifies (verify_download_token
          (create_download_token (fun _ => none) 0 "tokA" "f1" "ip1" true).2
          0 "tokA" "f1" "ip1").2 [⟨1, "tokA", "f1", "ip1"⟩])
        2 "tokA" "f1" "ip1").1 = false :=
  ⟨by decide,
   download_token_single_use _ 0 "tokA" "f1" "ip1" (by decide)
     [⟨1, "tokA", "f1", "ip1"⟩] 2 "f1" "ip1"⟩

end Znapfile
